import Mathlib

/-!
Verification of the KCSythEducProject transaction ledger and generation
pipeline.  The Python services are shallowly embedded: SQLAlchemy rows
become list entries, Python floats become rationals, commits become pure
state updates, and raised HTTP exceptions become error results paired
with the post-commit state.
-/

namespace KCSyth

/-- Modelled from the spec: the shared Status enumeration
(PROCESSING, DONE, FAILED) imported throughout the services from
database.enums; the member is absent from the provided snapshot of
enums.py but its three members are fixed by the spec and by every use
site in the services and the worker. -/
inductive Status where
  | PROCESSING
  | DONE
  | FAILED
deriving DecidableEq, Repr

/-- TransactionType from database/enums.py: CREDIT or DEBIT. -/
inductive TransactionType where
  | CREDIT
  | DEBIT
deriving DecidableEq, Repr

/-- A Transaction row (database/models.py).  The effect field is a ghost
annotation recording the token amount applied to the balance when the
transaction settled: the tokens credited for a DONE CREDIT, the amount
debited for a DONE DEBIT. -/
structure Tx where
  user : Nat
  amount : Rat
  ttype : TransactionType
  status : Status
  effect : Option Rat
deriving DecidableEq, Repr

/-- A GenerationHistory row as used by tts_service.py and the worker:
user, text, tokens_spent, status, and the s3_link set on completion. -/
structure GenRecord where
  user : Nat
  text : String
  tokensSpent : Rat
  status : Status
  s3Link : Option String
deriving DecidableEq, Repr

/-- The wire GenerationTask (ml_worker/task_model.py), restricted to the
fields the worker consumes. -/
structure Task where
  generationId : Nat
  user : Nat
  text : String
  tokensSpent : Rat
deriving DecidableEq, Repr

/-- A parsed worker delivery: the generation_id and text fields read
from the message body, plus the outcome of the external generation
engine for this handling (true when generate_audio succeeds).  A
malformed JSON body is modelled as the whole delivery being none. -/
structure Delivery where
  generationId : Option Nat
  text : String
  genOk : Bool
deriving DecidableEq, Repr

/-- Error outcomes raised by the services (HTTPException and plain
exceptions), named after the error taxonomy. -/
inductive Err where
  | userNotFound
  | transactionNotFound
  | balanceNotFound
  | invalidRate
  | invalidAmount
  | insufficientBalance
  | publishFailed
  | integrity
deriving DecidableEq, Repr

/-- The persistent state: users, balance rows keyed by user id,
the transaction table, the singleton exchange rate, the generation
history table (ids are list positions), and the broker queue of
published tasks. -/
structure State where
  users : List Nat
  balances : List (Nat × Rat)
  txs : List Tx
  rate : Rat
  gens : List GenRecord
  queue : List Task
deriving DecidableEq, Repr

/-- The state right after init_database: no users, the singleton
ExchangeService row with the default rate 1.2. -/
def initState : State :=
  { users := [], balances := [], txs := [], rate := 6/5, gens := [], queue := [] }

/-- First balance row matching a user id, as produced by
query(Balance).filter(Balance.user_id == user_id).first(). -/
def getBal : List (Nat × Rat) → Nat → Option Rat
  | [], _ => none
  | p :: rest, u => if p.1 = u then some p.2 else getBal rest u

/-- Overwrite the balance row of a user (the ORM attribute assignment
followed by commit). -/
def setBalance (s : State) (u : Nat) (q : Rat) : State :=
  { s with balances := s.balances.map (fun p => if p.1 = u then (u, q) else p) }

/-- convert_rub_to_tokens from services/exchange_service.py:
amount_in_rub * exchange_service.rate, reading the singleton rate row. -/
def convert_rub_to_tokens (amount : Rat) (s : State) : Rat :=
  amount * s.rate

/-- create_transaction from services/transaction_service.py: resolve the
user (404 UserNotFound otherwise), insert a PROCESSING row and return its
id.  Note the source performs no validation of the amount. -/
def create_transaction (s : State) (user : Nat) (amount : Rat)
    (ttype : TransactionType) : State × Except Err Nat :=
  if user ∈ s.users then
    ({ s with txs :=
        s.txs ++ [{ user := user, amount := amount, ttype := ttype,
                    status := Status.PROCESSING, effect := none }] },
     Except.ok s.txs.length)
  else
    (s, Except.error Err.userNotFound)

/-- process_transaction from services/transaction_service.py.  Returns
the committed state together with the returned transaction view or the
raised error.  Terminal transactions are returned unchanged; a missing
balance row marks the transaction FAILED and raises; CREDIT converts via
the exchange rate and increments the balance; DEBIT checks funds and
either marks FAILED (returning normally) or decrements the balance. -/
def process_transaction (s : State) (i : Nat) : State × Except Err Tx :=
  match s.txs.get? i with
  | none => (s, Except.error Err.transactionNotFound)
  | some tx =>
    if tx.status ≠ Status.PROCESSING then
      (s, Except.ok tx)
    else
      match getBal s.balances tx.user with
      | none =>
        let tx1 := { tx with status := Status.FAILED }
        ({ s with txs := s.txs.set i tx1 }, Except.error Err.balanceNotFound)
      | some bal =>
        match tx.ttype with
        | TransactionType.CREDIT =>
          let tokens := convert_rub_to_tokens tx.amount s
          let tx1 := { tx with status := Status.DONE, effect := some tokens }
          (setBalance { s with txs := s.txs.set i tx1 } tx.user (bal + tokens),
           Except.ok tx1)
        | TransactionType.DEBIT =>
          if bal < tx.amount then
            let tx1 := { tx with status := Status.FAILED }
            ({ s with txs := s.txs.set i tx1 }, Except.ok tx1)
          else
            let tx1 := { tx with status := Status.DONE, effect := some tx.amount }
            (setBalance { s with txs := s.txs.set i tx1 } tx.user (bal - tx.amount),
             Except.ok tx1)

/-- create_user from services/user_service.py: under the unique email
constraint (IntegrityError on violation, modelled as the id already
being taken), insert in one commit the user row, a Balance row with the
column default amount 100, and a DONE CREDIT transaction of amount 100. -/
def create_user (s : State) (u : Nat) : State × Except Err Nat :=
  if u ∈ s.users then
    (s, Except.error Err.integrity)
  else
    ({ s with
        users := u :: s.users,
        balances := (u, 100) :: s.balances,
        txs := s.txs ++ [{ user := u, amount := 100,
                           ttype := TransactionType.CREDIT,
                           status := Status.DONE, effect := some 100 }] },
     Except.ok u)

/-- update_exchange_rate from services/exchange_service.py together with
the UpdateExchangeRateSchema validator, which rejects rates that are not
positive before the service runs. -/
def update_exchange_rate (s : State) (r : Rat) : State × Except Err Unit :=
  if r ≤ 0 then
    (s, Except.error Err.invalidRate)
  else
    ({ s with rate := r }, Except.ok ())

/-- create_prediction from services/tts_service.py: create a DEBIT
transaction for tokens_spent and settle it (a FAILED settlement is
returned normally by process_transaction and its result is ignored),
then insert the GenerationHistory row in PROCESSING, build the task and
publish it.  The publishOk argument is the boolean returned by
publisher.publish_task; on false the record is marked FAILED, committed,
and the exception is re-raised to the caller. -/
def create_prediction (s : State) (u : Nat) (tokensSpent : Rat)
    (text : String) (publishOk : Bool) : State × Except Err Nat :=
  match create_transaction s u tokensSpent TransactionType.DEBIT with
  | (s1, Except.error e) => (s1, Except.error e)
  | (s1, Except.ok txId) =>
    match process_transaction s1 txId with
    | (s2, Except.error e) => (s2, Except.error e)
    | (s2, Except.ok _) =>
      let gid := s2.gens.length
      let rec0 : GenRecord :=
        { user := u, text := text, tokensSpent := tokensSpent,
          status := Status.PROCESSING, s3Link := none }
      let s3 := { s2 with gens := s2.gens ++ [rec0] }
      let task : Task :=
        { generationId := gid, user := u, text := text,
          tokensSpent := tokensSpent }
      if publishOk then
        ({ s3 with queue := s3.queue ++ [task] }, Except.ok gid)
      else
        ({ s3 with gens := s3.gens.set gid { rec0 with status := Status.FAILED } },
         Except.error Err.publishFailed)

/-- The /credit route from routes.py: reject non-positive amounts with a
400 before any database work, then create and immediately settle a
CREDIT transaction for the authenticated user. -/
def create_credit (s : State) (u : Nat) (amount : Rat) : State × Except Err Nat :=
  if amount ≤ 0 then
    (s, Except.error Err.invalidAmount)
  else
    match create_transaction s u amount TransactionType.CREDIT with
    | (s1, Except.error e) => (s1, Except.error e)
    | (s1, Except.ok txId) =>
      match process_transaction s1 txId with
      | (s2, Except.error e) => (s2, Except.error e)
      | (s2, Except.ok _) => (s2, Except.ok txId)

/-- The /predict route from routes.py: look up the balance of the
authenticated user, reject with a 400 Insufficient balance when
balance.amount < tokens_spent, and otherwise run create_prediction.
The tokens_spent argument is the count_tokens estimate, a natural
number produced by the external tokenizer. -/
def create_generation (s : State) (u : Nat) (text : String)
    (tokensSpent : Nat) (publishOk : Bool) : State × Except Err Nat :=
  match getBal s.balances u with
  | none => (s, Except.error Err.balanceNotFound)
  | some bal =>
    if bal < (tokensSpent : Rat) then
      (s, Except.error Err.insufficientBalance)
    else
      create_prediction s u (tokensSpent : Rat) text publishOk

/-- MLWorker.update_generation_status from worker.py: find the record,
set its status unconditionally, overwrite s3_link only when one is
supplied; a missing record is a logged no-op. -/
def update_generation_status (s : State) (gid : Nat) (status : Status)
    (link : Option String) : State :=
  match s.gens.get? gid with
  | none => s
  | some g =>
    let newLink : Option String :=
      match link with
      | some l => some l
      | none => g.s3Link
    { s with gens := s.gens.set gid { g with status := status, s3Link := newLink } }

/-- MLWorker.process_message from worker.py: a malformed body (none) is
rejected without touching the store; a missing generation_id or empty
text likewise; otherwise the record is marked PROCESSING, generation
runs, and the record is marked DONE with the output path on success or
FAILED on an engine exception. -/
def process_message (s : State) (d : Option Delivery) : State :=
  match d with
  | none => s
  | some dv =>
    match dv.generationId with
    | none => s
    | some gid =>
      if dv.text = "" then s
      else
        let s1 := update_generation_status s gid Status.PROCESSING none
        if dv.genOk then
          update_generation_status s1 gid Status.DONE
            (some ("output/" ++ toString gid ++ ".wav"))
        else
          update_generation_status s1 gid Status.FAILED none

/-- Fold a sequence of broker deliveries through the worker. -/
def runDeliveries (s : State) (ds : List (Option Delivery)) : State :=
  ds.foldl process_message s

/-- Modelled from the SQLAlchemy contract used by models.py:
object_session of a freshly constructed ORM instance that has not been
added to any session is None, so inside the constructor of the instance
it is always None. -/
def object_session_of_new : Option Nat :=
  none

/-- The singleton guard in ExchangeService.__init__ (database/models.py):
raise ValueError when the session of self is set and it already holds an
ExchangeService record. -/
def exchange_service_init_check (existingCount : Nat) (sess : Option Nat) :
    Except String Unit :=
  match sess with
  | some _ =>
    if existingCount > 0 then
      Except.error "Cannot create more than one ExchangeService record"
    else
      Except.ok ()
  | none => Except.ok ()

/-- Constructing an ExchangeService instance and committing it: the
constructor runs its guard with the session of the new instance, and on
success the row count grows by one. -/
def add_exchange_service (existingCount : Nat) : Except String Nat :=
  match exchange_service_init_check existingCount object_session_of_new with
  | Except.error e => Except.error e
  | Except.ok _ => Except.ok (existingCount + 1)

/-- The operations reachable through the API surface and the worker:
user registration, the /credit route, the /predict route (with the
externally estimated token count and the publish outcome), a settle
call on an arbitrary transaction id, an exchange-rate update, and a
worker delivery. -/
inductive Act where
  | register (u : Nat)
  | credit (u : Nat) (amount : Rat)
  | predict (u : Nat) (text : String) (tok : Nat) (publishOk : Bool)
  | settle (i : Nat)
  | setRate (r : Rat)
  | deliver (d : Option Delivery)

/-- State transition of one operation (committed state, outcome dropped). -/
def applyAct (s : State) (a : Act) : State :=
  match a with
  | Act.register u => (create_user s u).1
  | Act.credit u amount => (create_credit s u amount).1
  | Act.predict u text tok publishOk => (create_generation s u text tok publishOk).1
  | Act.settle i => (process_transaction s i).1
  | Act.setRate r => (update_exchange_rate s r).1
  | Act.deliver d => process_message s d

/-- Run a sequence of operations from the initialized database. -/
def runActs (acts : List Act) : State :=
  acts.foldl applyAct initState

/-- A state is reachable when some operation sequence produces it. -/
def Reachable (s : State) : Prop :=
  ∃ acts : List Act, runActs acts = s

/-- Operations that settle transactions (registration settles the
initial grant; the credit and predict routes create and settle a
transaction; settle is settlement itself).  Rate updates and worker
deliveries never settle anything. -/
def settlesTransactions : Act → Bool
  | Act.register _ => true
  | Act.credit _ _ => true
  | Act.predict _ _ _ _ => true
  | Act.settle _ => true
  | Act.setRate _ => false
  | Act.deliver _ => false

/-- Token-equivalent contribution of one transaction to the DONE CREDIT
side of the ledger of user u. -/
def creditContribution (u : Nat) (tx : Tx) : Rat :=
  if tx.user = u ∧ tx.ttype = TransactionType.CREDIT ∧ tx.status = Status.DONE then
    tx.effect.getD 0
  else
    0

/-- Contribution of one transaction to the DONE DEBIT side of the
ledger of user u. -/
def debitContribution (u : Nat) (tx : Tx) : Rat :=
  if tx.user = u ∧ tx.ttype = TransactionType.DEBIT ∧ tx.status = Status.DONE then
    tx.amount
  else
    0

/-- Sum of the token-equivalent amounts of the DONE CREDIT transactions
of user u. -/
def creditSum (s : State) (u : Nat) : Rat :=
  (s.txs.map (creditContribution u)).sum

/-- Sum of the amounts of the DONE DEBIT transactions of user u. -/
def debitSum (s : State) (u : Nat) : Rat :=
  (s.txs.map (debitContribution u)).sum

/-- The inductive ledger invariant: positive exchange rate, one balance
row per user id and one user per balance row, transactions only for
existing users, every transaction settled by the end of its request,
and each balance equal to the nonnegative DONE ledger sum. -/
def LedgerInv (s : State) : Prop :=
  0 < s.rate ∧
  (s.balances.map Prod.fst).Nodup ∧
  (∀ u : Nat, u ∈ s.users ↔ (getBal s.balances u).isSome) ∧
  (∀ tx ∈ s.txs, tx.user ∈ s.users) ∧
  (∀ tx ∈ s.txs, tx.status ≠ Status.PROCESSING) ∧
  (∀ u b, getBal s.balances u = some b → b = creditSum s u - debitSum s u ∧ 0 ≤ b)

/-- The initial-grant transaction row inserted by create_user. -/
def grantTx (u : Nat) : Tx :=
  { user := u, amount := 100, ttype := TransactionType.CREDIT,
    status := Status.DONE, effect := some 100 }

/-- The settled DEBIT row produced by a successful generation debit. -/
def debitDoneTx (u : Nat) (tok : Rat) : Tx :=
  { user := u, amount := tok, ttype := TransactionType.DEBIT,
    status := Status.DONE, effect := some tok }

/-- A delivery is effective on a record only while that record is not
yet terminal: if the delivery parses, names a generation id and carries
non-empty text, the record it targets (when it exists) is still
PROCESSING.  This captures at-most-once effective delivery: no
re-delivery or duplicate arrives after the record settled. -/
def TargetsNonTerminal (s : State) (d : Option Delivery) : Prop :=
  ∀ (dv : Delivery) (gid : Nat) (g : GenRecord),
    d = some dv → dv.generationId = some gid → dv.text ≠ "" →
    s.gens.get? gid = some g → g.status = Status.PROCESSING

/-- Every delivery of a sequence arrives while its target is still
non-terminal, checked against the state the worker has reached. -/
def AtMostOnceEffective : State → List (Option Delivery) → Prop
  | _, [] => True
  | s, d :: ds => TargetsNonTerminal s d ∧ AtMostOnceEffective (process_message s d) ds

/-! Concrete fixture states for witnesses and counterexamples. -/

/-- One registered user whose balance row holds 0 tokens. -/
def noFundsState : State :=
  { users := [0], balances := [(0, 0)], txs := [], rate := 6/5,
    gens := [], queue := [] }

/-- One registered user whose balance row holds 100 tokens. -/
def fundedState : State :=
  { users := [0], balances := [(0, 100)], txs := [], rate := 6/5,
    gens := [], queue := [] }

/-- A store holding one generation record already in the terminal DONE
state with its artifact link. -/
def doneRecordState : State :=
  { users := [], balances := [], txs := [], rate := 6/5,
    gens := [{ user := 0, text := "hi", tokensSpent := 5,
               status := Status.DONE, s3Link := some "output/0.wav" }],
    queue := [] }

/-! Helper lemmas about the list-level primitives. -/

theorem mem_of_getq {α : Type} : ∀ (l : List α) (i : Nat) (a : α),
    l.get? i = some a → a ∈ l := by
  intro l
  induction l with
  | nil => intro i a h; cases i <;> simp [List.get?] at h
  | cons x xs ih =>
    intro i a h
    cases i with
    | zero =>
      have hx : x = a := by simpa [List.get?] using h
      simp [hx]
    | succ j =>
      have h2 : xs.get? j = some a := h
      exact List.mem_cons_of_mem x (ih j a h2)

theorem getq_concat_self {α : Type} : ∀ (l : List α) (a : α),
    (l ++ [a]).get? l.length = some a := by
  intro l a
  induction l with
  | nil => rfl
  | cons x xs ih => simp [List.get?, ih]

theorem set_concat {α : Type} : ∀ (l : List α) (a b : α),
    (l ++ [a]).set l.length b = l ++ [b] := by
  intro l a b
  induction l with
  | nil => rfl
  | cons x xs ih => simp [List.set, ih]

theorem getq_set_self {α : Type} : ∀ (l : List α) (i : Nat) (a b : α),
    l.get? i = some a → (l.set i b).get? i = some b := by
  intro l
  induction l with
  | nil => intro i a b h; cases i <;> simp [List.get?] at h
  | cons x xs ih =>
    intro i a b h
    cases i with
    | zero => rfl
    | succ j =>
      have h2 : xs.get? j = some a := h
      have h3 : (xs.set j b).get? j = some b := ih j a b h2
      exact h3

theorem getBal_none_iff : ∀ (l : List (Nat × Rat)) (u : Nat),
    getBal l u = none ↔ u ∉ l.map Prod.fst := by
  intro l u
  induction l with
  | nil => simp [getBal]
  | cons p rest ih =>
    by_cases h : p.1 = u
    · subst h
      simp [getBal]
    · simp [getBal, h, ih, Ne.symm h]

theorem getBal_update_self : ∀ (l : List (Nat × Rat)) (u : Nat) (q : Rat),
    getBal (l.map (fun p => if p.1 = u then (u, q) else p)) u =
      (getBal l u).map (fun _ => q) := by
  intro l u q
  induction l with
  | nil => rfl
  | cons p rest ih =>
    by_cases h : p.1 = u
    · simp [getBal, h]
    · simp [getBal, h, ih]

theorem getBal_update_other : ∀ (l : List (Nat × Rat)) (u : Nat) (q : Rat)
    (v : Nat), v ≠ u →
    getBal (l.map (fun p => if p.1 = u then (u, q) else p)) v = getBal l v := by
  intro l u q v hvu
  induction l with
  | nil => rfl
  | cons p rest ih =>
    by_cases h : p.1 = u
    · have hpv : ¬ u = v := fun hh => hvu hh.symm
      have hpv2 : ¬ p.1 = v := by
        rw [h]
        exact hpv
      simp [getBal, h, hpv, hpv2, ih]
    · by_cases h2 : p.1 = v
      · simp [getBal, h, h2, hvu, ih]
      · simp [getBal, h, h2, ih]

theorem keys_update : ∀ (l : List (Nat × Rat)) (u : Nat) (q : Rat),
    (l.map (fun p => if p.1 = u then (u, q) else p)).map Prod.fst =
      l.map Prod.fst := by
  intro l u q
  induction l with
  | nil => rfl
  | cons p rest ih =>
    by_cases h : p.1 = u
    · simp [h, ih]
    · simp [h, ih]

/-! Characterizations of the operations on the paths the claims are
about. -/

/-- Settling a transaction that is already terminal returns the current
row and leaves the whole state unchanged. -/
theorem process_terminal_eq (s : State) (i : Nat) (tx : Tx)
    (hget : s.txs.get? i = some tx) (hterm : tx.status ≠ Status.PROCESSING) :
    process_transaction s i = (s, Except.ok tx) := by
  unfold process_transaction
  rw [hget]
  simp [hterm]

/-- Settling a PROCESSING DEBIT with insufficient balance marks it
FAILED and changes nothing else. -/
theorem process_debit_insufficient_eq (s : State) (i : Nat) (tx : Tx)
    (bal : Rat) (hget : s.txs.get? i = some tx)
    (hst : tx.status = Status.PROCESSING)
    (hty : tx.ttype = TransactionType.DEBIT)
    (hbal : getBal s.balances tx.user = some bal) (hlt : bal < tx.amount) :
    process_transaction s i =
      ({ s with txs := s.txs.set i { tx with status := Status.FAILED } },
       Except.ok { tx with status := Status.FAILED }) := by
  unfold process_transaction
  rw [hget]
  simp only [hst, hty, hbal]
  simp [hlt]

/-- Settling a PROCESSING CREDIT whose user has a balance row adds
amount * rate to the balance and marks it DONE. -/
theorem process_credit_eq (s : State) (i : Nat) (tx : Tx) (bal : Rat)
    (hget : s.txs.get? i = some tx) (hst : tx.status = Status.PROCESSING)
    (hty : tx.ttype = TransactionType.CREDIT)
    (hbal : getBal s.balances tx.user = some bal) :
    process_transaction s i =
      (setBalance
        { s with txs := s.txs.set i (
            { tx with status := Status.DONE, effect := some (tx.amount * s.rate) }) }
        tx.user (bal + tx.amount * s.rate),
       Except.ok { tx with status := Status.DONE, effect := some (tx.amount * s.rate) }) := by
  unfold process_transaction
  rw [hget]
  simp [hst, hty, hbal, convert_rub_to_tokens]

/-- Settling a PROCESSING DEBIT with sufficient balance subtracts the
amount and marks it DONE. -/
theorem process_debit_sufficient_eq (s : State) (i : Nat) (tx : Tx)
    (bal : Rat) (hget : s.txs.get? i = some tx)
    (hst : tx.status = Status.PROCESSING)
    (hty : tx.ttype = TransactionType.DEBIT)
    (hbal : getBal s.balances tx.user = some bal) (hge : ¬ bal < tx.amount) :
    process_transaction s i =
      (setBalance
        { s with txs := s.txs.set i (
            { tx with status := Status.DONE, effect := some tx.amount }) }
        tx.user (bal - tx.amount),
       Except.ok { tx with status := Status.DONE, effect := some tx.amount }) := by
  unfold process_transaction
  rw [hget]
  simp [hst, hty, hbal, hge]

/-! Claim theorems. -/

/-- Claim C2: settling a transaction whose status is already terminal
(not PROCESSING) returns the current transaction row and leaves the
whole state, in particular every balance, unchanged: a second settle
call is an idempotent no-op. -/
theorem settle_on_terminal_is_noop (s : State) (i : Nat) (tx : Tx)
    (hget : s.txs.get? i = some tx)
    (hterm : tx.status ≠ Status.PROCESSING) :
    process_transaction s i = (s, Except.ok tx) :=
  process_terminal_eq s i tx hget hterm

/-- Witness for C2: a DONE credit transaction settled a second time. -/
theorem settle_on_terminal_is_noop_witness :
    process_transaction
      { users := [0], balances := [(0, 100)],
        txs := [{ user := 0, amount := 100, ttype := TransactionType.CREDIT,
                  status := Status.DONE, effect := some 100 }],
        rate := 6/5, gens := [], queue := [] } 0 =
    ({ users := [0], balances := [(0, 100)],
       txs := [{ user := 0, amount := 100, ttype := TransactionType.CREDIT,
                 status := Status.DONE, effect := some 100 }],
       rate := 6/5, gens := [], queue := [] },
     Except.ok { user := 0, amount := 100, ttype := TransactionType.CREDIT,
                 status := Status.DONE, effect := some 100 }) :=
  settle_on_terminal_is_noop _ 0 _ rfl (by decide)

/-- Claim C3: settling a PROCESSING DEBIT whose amount strictly exceeds
the owning user balance marks the transaction FAILED and leaves the
balance table exactly unchanged. -/
theorem debit_insufficient_fails_balance_unchanged (s : State) (i : Nat)
    (tx : Tx) (bal : Rat) (hget : s.txs.get? i = some tx)
    (hst : tx.status = Status.PROCESSING)
    (hty : tx.ttype = TransactionType.DEBIT)
    (hbal : getBal s.balances tx.user = some bal) (hlt : bal < tx.amount) :
    (process_transaction s i).1.balances = s.balances ∧
    (process_transaction s i).1.txs.get? i =
      some { tx with status := Status.FAILED } ∧
    (process_transaction s i).2 = Except.ok { tx with status := Status.FAILED } := by
  rw [process_debit_insufficient_eq s i tx bal hget hst hty hbal hlt]
  refine ⟨rfl, ?_, rfl⟩
  exact getq_set_self s.txs i tx { tx with status := Status.FAILED } hget

/-- Witness for C3: a DEBIT of 5 against a balance of 3. -/
theorem debit_insufficient_fails_balance_unchanged_witness :
    (process_transaction
      { users := [0], balances := [(0, 3)],
        txs := [{ user := 0, amount := 5, ttype := TransactionType.DEBIT,
                  status := Status.PROCESSING, effect := none }],
        rate := 6/5, gens := [], queue := [] } 0).1.balances = [(0, 3)] ∧
    (process_transaction
      { users := [0], balances := [(0, 3)],
        txs := [{ user := 0, amount := 5, ttype := TransactionType.DEBIT,
                  status := Status.PROCESSING, effect := none }],
        rate := 6/5, gens := [], queue := [] } 0).2 =
      Except.ok { user := 0, amount := 5, ttype := TransactionType.DEBIT,
                  status := Status.FAILED, effect := none } := by
  have h := debit_insufficient_fails_balance_unchanged
    { users := [0], balances := [(0, 3)],
      txs := [{ user := 0, amount := 5, ttype := TransactionType.DEBIT,
                status := Status.PROCESSING, effect := none }],
      rate := 6/5, gens := [], queue := [] } 0
    { user := 0, amount := 5, ttype := TransactionType.DEBIT,
      status := Status.PROCESSING, effect := none } 3
    rfl rfl rfl rfl (by decide)
  exact ⟨h.1, h.2.2⟩

/-- Claim C4: settling a PROCESSING CREDIT of amount R while the active
rate is k and the user has a balance row increases that balance by
exactly R * k and marks the transaction DONE. -/
theorem credit_settlement_adds_converted_tokens (s : State) (i : Nat)
    (tx : Tx) (bal : Rat) (hget : s.txs.get? i = some tx)
    (hst : tx.status = Status.PROCESSING)
    (hty : tx.ttype = TransactionType.CREDIT)
    (hbal : getBal s.balances tx.user = some bal) :
    getBal (process_transaction s i).1.balances tx.user =
      some (bal + tx.amount * s.rate) ∧
    (process_transaction s i).1.txs.get? i =
      some { tx with status := Status.DONE, effect := some (tx.amount * s.rate) } ∧
    (process_transaction s i).2 =
      Except.ok { tx with status := Status.DONE,
                          effect := some (tx.amount * s.rate) } := by
  rw [process_credit_eq s i tx bal hget hst hty hbal]
  refine ⟨?_, ?_, rfl⟩
  · simp [setBalance, getBal_update_self, hbal]
  · show ((s.txs.set i _).get? i = _)
    exact getq_set_self s.txs i tx
      { tx with status := Status.DONE, effect := some (tx.amount * s.rate) } hget

/-- Witness for C4: a CREDIT of 300 at rate 6/5 on a balance of 100
yields 460, matching the spec scenario. -/
theorem credit_settlement_adds_converted_tokens_witness :
    getBal (process_transaction
      { users := [0], balances := [(0, 100)],
        txs := [{ user := 0, amount := 300, ttype := TransactionType.CREDIT,
                  status := Status.PROCESSING, effect := none }],
        rate := 6/5, gens := [], queue := [] } 0).1.balances 0 = some 460 := by
  have h := credit_settlement_adds_converted_tokens
    { users := [0], balances := [(0, 100)],
      txs := [{ user := 0, amount := 300, ttype := TransactionType.CREDIT,
                status := Status.PROCESSING, effect := none }],
      rate := 6/5, gens := [], queue := [] } 0
    { user := 0, amount := 300, ttype := TransactionType.CREDIT,
      status := Status.PROCESSING, effect := none } 100
    rfl rfl rfl rfl
  have h460 : (100 : Rat) + 300 * (6/5) = 460 := by norm_num
  calc getBal (process_transaction
      { users := [0], balances := [(0, 100)],
        txs := [{ user := 0, amount := 300, ttype := TransactionType.CREDIT,
                  status := Status.PROCESSING, effect := none }],
        rate := 6/5, gens := [], queue := [] } 0).1.balances 0
      = some ((100 : Rat) + 300 * (6/5)) := h.1
    _ = some 460 := by rw [h460]

/-- Claim C5 counterexample: with a user whose balance is 0, a direct
generation request for 5 tokens sees its DEBIT settlement fail for
insufficient funds, yet create_prediction still inserts the
GenerationRecord in PROCESSING, still hands the task to the publisher
and returns it as a success. -/
theorem insufficient_debit_generation_counterexample :
    (create_prediction noFundsState 0 5 "hi" true).1.txs.get? 0 =
      some { user := 0, amount := 5, ttype := TransactionType.DEBIT,
             status := Status.FAILED, effect := none } ∧
    (create_prediction noFundsState 0 5 "hi" true).1.gens =
      [{ user := 0, text := "hi", tokensSpent := 5,
         status := Status.PROCESSING, s3Link := none }] ∧
    (create_prediction noFundsState 0 5 "hi" true).1.queue =
      [{ generationId := 0, user := 0, text := "hi", tokensSpent := 5 }] ∧
    (create_prediction noFundsState 0 5 "hi" true).2 = Except.ok 0 := by
  refine ⟨rfl, rfl, rfl, rfl⟩

/-- Claim C6 counterexample: when the publish step reports failure the
method does mark the record FAILED and does keep the debit, but it
raises (an error result) instead of returning the FAILED record. -/
theorem publish_failure_raises_counterexample :
    (create_prediction fundedState 0 5 "hi" false).2 =
      Except.error Err.publishFailed ∧
    (create_prediction fundedState 0 5 "hi" false).1.gens =
      [{ user := 0, text := "hi", tokensSpent := 5,
         status := Status.FAILED, s3Link := none }] ∧
    getBal (create_prediction fundedState 0 5 "hi" false).1.balances 0 =
      some 95 := by
  refine ⟨rfl, rfl, ?_⟩
  have hb : (create_prediction fundedState 0 5 "hi" false).1.balances =
      [(0, (100 : Rat) - 5)] := rfl
  rw [hb]
  simp [getBal]
  norm_num

/-- Claim C7 (code bug): create_transaction performs no amount
validation: called for an existing user with the non-positive amount
-100 it succeeds and inserts a PROCESSING row carrying that amount,
where the claim, the spec and the repository test
test_invalid_transaction_amount all expect an InvalidAmount failure
with no inserted row. -/
theorem create_transaction_accepts_nonpositive_amount :
    create_transaction fundedState 0 (-100) TransactionType.CREDIT =
      ({ users := [0], balances := [(0, 100)],
         txs := [{ user := 0, amount := -100,
                   ttype := TransactionType.CREDIT,
                   status := Status.PROCESSING, effect := none }],
         rate := 6/5, gens := [], queue := [] },
       Except.ok 0) ∧
    create_transaction fundedState 0 0 TransactionType.DEBIT =
      ({ users := [0], balances := [(0, 100)],
         txs := [{ user := 0, amount := 0,
                   ttype := TransactionType.DEBIT,
                   status := Status.PROCESSING, effect := none }],
         rate := 6/5, gens := [], queue := [] },
       Except.ok 0) := by
  refine ⟨rfl, rfl⟩

/-- Claim C8 counterexample: a record already DONE receives a duplicate
delivery whose generation run fails; the worker overwrites the terminal
status, ending at FAILED, so a terminal status does change under
re-delivery. -/
theorem terminal_status_overwritten_counterexample :
    doneRecordState.gens.get? 0 =
      some { user := 0, text := "hi", tokensSpent := 5,
             status := Status.DONE, s3Link := some "output/0.wav" } ∧
    (process_message doneRecordState
        (some { generationId := some 0, text := "hi", genOk := false })).gens.get? 0 =
      some { user := 0, text := "hi", tokensSpent := 5,
             status := Status.FAILED, s3Link := some "output/0.wav" } := by
  refine ⟨rfl, rfl⟩

/-- Claim C9 (code bug): the singleton guard inside the ExchangeService
constructor compares against the session of a freshly constructed
instance, which is always None, so the guard never raises for any
existing row count, and constructing while one record exists yields a
second record. -/
theorem exchange_singleton_guard_never_fires :
    (∀ n : Nat,
      exchange_service_init_check n object_session_of_new = Except.ok ()) ∧
    add_exchange_service 1 = Except.ok 2 := by
  exact ⟨fun n => rfl, rfl⟩

/-- Creating a transaction for an existing user appends one PROCESSING
row and returns its index. -/
theorem create_transaction_mem (s : State) (u : Nat) (amount : Rat)
    (ttype : TransactionType) (hu : u ∈ s.users) :
    create_transaction s u amount ttype =
      ({ s with txs := s.txs ++ [{ user := u, amount := amount, ttype := ttype,
                                   status := Status.PROCESSING, effect := none }] },
       Except.ok s.txs.length) := by
  unfold create_transaction
  simp [hu]

/-- Appending one transaction of a user to a table holding none of that
user filters down to exactly that transaction. -/
theorem filter_user_concat (l : List Tx) (g : Tx) (u : Nat)
    (hno : ∀ tx ∈ l, tx.user ≠ u) (hg : g.user = u) :
    (l ++ [g]).filter (fun tx => tx.user == u) = [g] := by
  rw [List.filter_append]
  have h1 : l.filter (fun tx => tx.user == u) = [] := by
    apply List.filter_eq_nil_iff.mpr
    intro tx htx
    simp [hno tx htx]
  rw [h1]
  simp [hg]

/-- Claim C10: creating a user inserts, atomically, the user row, a
balance row with amount exactly 100, and a DONE CREDIT transaction of
amount 100, so the fresh transaction history of that user is exactly the
one settled initial-grant credit; the exchange rate is neither read nor
written (the rate is unchanged and the granted amount is 100 for every
value of the rate). -/
theorem create_user_initial_grant (s : State) (u : Nat)
    (hu : u ∉ s.users) (hno : ∀ tx ∈ s.txs, tx.user ≠ u) :
    (create_user s u).2 = Except.ok u ∧
    (create_user s u).1.users = u :: s.users ∧
    getBal (create_user s u).1.balances u = some 100 ∧
    (create_user s u).1.txs.filter (fun tx => tx.user == u) =
      [{ user := u, amount := 100, ttype := TransactionType.CREDIT,
         status := Status.DONE, effect := some 100 }] ∧
    (create_user s u).1.rate = s.rate := by
  have hcu : create_user s u =
      ({ s with
          users := u :: s.users,
          balances := (u, 100) :: s.balances,
          txs := s.txs ++ [{ user := u, amount := 100,
                             ttype := TransactionType.CREDIT,
                             status := Status.DONE, effect := some 100 }] },
       Except.ok u) := by
    unfold create_user
    simp [hu]
  rw [hcu]
  refine ⟨rfl, rfl, ?_, ?_, rfl⟩
  · simp [getBal]
  · exact filter_user_concat s.txs _ u hno rfl

/-- Witness for C10: registering user 0 on the initialized database. -/
theorem create_user_initial_grant_witness :
    (create_user initState 0).2 = Except.ok 0 ∧
    getBal (create_user initState 0).1.balances 0 = some 100 ∧
    (create_user initState 0).1.txs.filter (fun tx => tx.user == 0) =
      [{ user := 0, amount := 100, ttype := TransactionType.CREDIT,
         status := Status.DONE, effect := some 100 }] := by
  have h := create_user_initial_grant initState 0 (by simp [initState])
    (by intro tx htx; simp [initState] at htx)
  exact ⟨h.1, h.2.2.1, h.2.2.2.1⟩

/-- Route-level pre-check in /predict rejects an insufficient balance
before any transaction, record or task exists. -/
theorem predict_route_rejects_insufficient (s : State) (u : Nat)
    (text : String) (tok : Nat) (publishOk : Bool) (bal : Rat)
    (hbal : getBal s.balances u = some bal) (hlt : bal < (tok : Rat)) :
    create_generation s u text tok publishOk =
      (s, Except.error Err.insufficientBalance) := by
  unfold create_generation
  rw [hbal]
  simp [hlt]

/-- Service level: when the DEBIT settlement inside create_prediction
fails for insufficient balance, the FAILED settlement result is ignored
and the record and task are still produced. -/
theorem create_prediction_ignores_failed_debit (s : State) (u : Nat)
    (tok : Rat) (text : String) (bal : Rat) (hu : u ∈ s.users)
    (hbal : getBal s.balances u = some bal) (hlt : bal < tok) :
    (create_prediction s u tok text true).1.gens =
      s.gens ++ [{ user := u, text := text, tokensSpent := tok,
                   status := Status.PROCESSING, s3Link := none }] ∧
    (create_prediction s u tok text true).1.queue =
      s.queue ++ [{ generationId := s.gens.length, user := u, text := text,
                    tokensSpent := tok }] ∧
    (create_prediction s u tok text true).1.balances = s.balances ∧
    (create_prediction s u tok text true).1.txs =
      s.txs ++ [{ user := u, amount := tok, ttype := TransactionType.DEBIT,
                  status := Status.FAILED, effect := none }] ∧
    (create_prediction s u tok text true).2 = Except.ok s.gens.length := by
  have hct := create_transaction_mem s u tok TransactionType.DEBIT hu
  have hget : ({ s with txs := s.txs ++
      [{ user := u, amount := tok, ttype := TransactionType.DEBIT,
         status := Status.PROCESSING, effect := none }] } : State).txs.get?
        s.txs.length =
      some { user := u, amount := tok, ttype := TransactionType.DEBIT,
             status := Status.PROCESSING, effect := none } :=
    getq_concat_self s.txs _
  have hpt := process_debit_insufficient_eq
    { s with txs := s.txs ++
        [{ user := u, amount := tok, ttype := TransactionType.DEBIT,
           status := Status.PROCESSING, effect := none }] }
    s.txs.length
    { user := u, amount := tok, ttype := TransactionType.DEBIT,
      status := Status.PROCESSING, effect := none }
    bal hget rfl rfl hbal hlt
  simp only [create_prediction, hct, hpt, set_concat]
  exact ⟨rfl, rfl, rfl, rfl, rfl⟩

/-- Claim C5 amended: an insufficient-balance generation request is
rejected only by the route-level pre-check in /predict, which fails
before any transaction, record or task exists; when the DEBIT
settlement itself fails for insufficient balance inside
create_prediction, the failure is not surfaced: the GenerationRecord is
still created in PROCESSING, the GenerationTask is still handed to the
publisher, and the call reports success. -/
theorem insufficient_balance_request_behavior :
    (∀ (s : State) (u : Nat) (text : String) (tok : Nat)
        (publishOk : Bool) (bal : Rat),
      getBal s.balances u = some bal → bal < (tok : Rat) →
      create_generation s u text tok publishOk =
        (s, Except.error Err.insufficientBalance)) ∧
    (∀ (s : State) (u : Nat) (tok : Rat) (text : String) (bal : Rat),
      u ∈ s.users → getBal s.balances u = some bal → bal < tok →
      (create_prediction s u tok text true).1.gens =
        s.gens ++ [{ user := u, text := text, tokensSpent := tok,
                     status := Status.PROCESSING, s3Link := none }] ∧
      (create_prediction s u tok text true).1.queue =
        s.queue ++ [{ generationId := s.gens.length, user := u, text := text,
                      tokensSpent := tok }] ∧
      (create_prediction s u tok text true).1.balances = s.balances ∧
      (create_prediction s u tok text true).1.txs =
        s.txs ++ [{ user := u, amount := tok, ttype := TransactionType.DEBIT,
                    status := Status.FAILED, effect := none }] ∧
      (create_prediction s u tok text true).2 = Except.ok s.gens.length) :=
  ⟨predict_route_rejects_insufficient, create_prediction_ignores_failed_debit⟩

/-- Witness for the C5 amended theorem: the route rejects a request for
5 tokens on a balance of 0, and the service called directly in the same
situation still creates the record and publishes the task. -/
theorem insufficient_balance_request_behavior_witness :
    create_generation noFundsState 0 "hi" 5 true =
      (noFundsState, Except.error Err.insufficientBalance) ∧
    (create_prediction noFundsState 0 5 "hi" true).1.gens =
      [{ user := 0, text := "hi", tokensSpent := 5,
         status := Status.PROCESSING, s3Link := none }] ∧
    (create_prediction noFundsState 0 5 "hi" true).2 = Except.ok 0 := by
  have ha := insufficient_balance_request_behavior.1 noFundsState 0 "hi" 5
    true 0 rfl (by norm_num)
  have hb := insufficient_balance_request_behavior.2 noFundsState 0 5 "hi" 0
    (by simp [noFundsState]) rfl (by norm_num)
  exact ⟨ha, hb.1, hb.2.2.2.2⟩

/-- Claim C6 amended: when publish reports failure after a successful
DEBIT settlement, the GenerationRecord is marked FAILED, the debited
tokens stay debited (no refund), nothing is queued, and the method
raises: the caller receives an error, not the FAILED record. -/
theorem publish_failure_marks_failed_and_raises (s : State) (u : Nat)
    (tok : Rat) (text : String) (bal : Rat) (hu : u ∈ s.users)
    (hbal : getBal s.balances u = some bal) (hge : ¬ bal < tok) :
    (create_prediction s u tok text false).2 =
      Except.error Err.publishFailed ∧
    (create_prediction s u tok text false).1.gens =
      s.gens ++ [{ user := u, text := text, tokensSpent := tok,
                   status := Status.FAILED, s3Link := none }] ∧
    getBal (create_prediction s u tok text false).1.balances u =
      some (bal - tok) ∧
    (create_prediction s u tok text false).1.queue = s.queue := by
  have hct := create_transaction_mem s u tok TransactionType.DEBIT hu
  have hget : ({ s with txs := s.txs ++
      [{ user := u, amount := tok, ttype := TransactionType.DEBIT,
         status := Status.PROCESSING, effect := none }] } : State).txs.get?
        s.txs.length =
      some { user := u, amount := tok, ttype := TransactionType.DEBIT,
             status := Status.PROCESSING, effect := none } :=
    getq_concat_self s.txs _
  have hpt := process_debit_sufficient_eq
    { s with txs := s.txs ++
        [{ user := u, amount := tok, ttype := TransactionType.DEBIT,
           status := Status.PROCESSING, effect := none }] }
    s.txs.length
    { user := u, amount := tok, ttype := TransactionType.DEBIT,
      status := Status.PROCESSING, effect := none }
    bal hget rfl rfl hbal hge
  have key : create_prediction s u tok text false =
      ({ users := s.users,
         balances := s.balances.map (fun p => if p.1 = u then (u, bal - tok) else p),
         txs := s.txs ++ [{ user := u, amount := tok,
                            ttype := TransactionType.DEBIT,
                            status := Status.DONE, effect := some tok }],
         rate := s.rate,
         gens := s.gens ++ [{ user := u, text := text, tokensSpent := tok,
                              status := Status.FAILED, s3Link := none }],
         queue := s.queue },
       Except.error Err.publishFailed) := by
    simp only [create_prediction, hct, hpt, setBalance]
    simp [set_concat]
  rw [key]
  refine ⟨rfl, rfl, ?_, rfl⟩
  rw [getBal_update_self s.balances u (bal - tok), hbal]
  rfl

/-- Witness for the C6 amended theorem: publish failure for a 5-token
generation on a balance of 100. -/
theorem publish_failure_marks_failed_and_raises_witness :
    (create_prediction fundedState 0 5 "hi" false).2 =
      Except.error Err.publishFailed ∧
    (create_prediction fundedState 0 5 "hi" false).1.queue = [] := by
  have h := publish_failure_marks_failed_and_raises fundedState 0 5 "hi" 100
    (by simp [fundedState]) rfl (by norm_num)
  exact ⟨h.1, h.2.2.2⟩

/-- Setting one index leaves every other index of a list unchanged. -/
theorem getq_set_other {α : Type} : ∀ (l : List α) (i j : Nat) (a : α),
    j ≠ i → (l.set i a).get? j = l.get? j := by
  intro l
  induction l with
  | nil => intro i j a _; rfl
  | cons x xs ih =>
    intro i j a h
    cases i with
    | zero =>
      cases j with
      | zero => exact absurd rfl h
      | succ jj => rfl
    | succ ii =>
      cases j with
      | zero => rfl
      | succ jj =>
        have h2 : jj ≠ ii := fun hh => h (by rw [hh])
        exact ih ii jj a h2

/-- A worker status update for one generation id does not move any
other record. -/
theorem update_status_getq_other (s : State) (gid2 : Nat) (st : Status)
    (link : Option String) (gid : Nat) (h : gid ≠ gid2) :
    (update_generation_status s gid2 st link).gens.get? gid =
      s.gens.get? gid := by
  unfold update_generation_status
  cases hg : s.gens.get? gid2 with
  | none => rfl
  | some g =>
    show (s.gens.set gid2 _).get? gid = _
    exact getq_set_other s.gens gid2 gid _ h

/-- A delivery naming a different generation id leaves a record
unchanged. -/
theorem process_message_getq_other (s : State) (dv : Delivery)
    (gid2 gid : Nat) (hgid2 : dv.generationId = some gid2)
    (hne : gid ≠ gid2) :
    (process_message s (some dv)).gens.get? gid = s.gens.get? gid := by
  simp only [process_message]
  rw [hgid2]
  by_cases htext : dv.text = ""
  · simp [htext]
  · simp only [htext, if_neg, ite_false, if_false]
    cases hok : dv.genOk with
    | true =>
      rw [if_pos (rfl : true = true)]
      rw [update_status_getq_other _ gid2 _ _ gid hne]
      rw [update_status_getq_other _ gid2 _ _ gid hne]
    | false =>
      rw [if_neg Bool.false_ne_true]
      rw [update_status_getq_other _ gid2 _ _ gid hne]
      rw [update_status_getq_other _ gid2 _ _ gid hne]

/-- A delivery that does not effectively target a record leaves that
record unchanged; combined over a whole sequence of at-most-once
effective deliveries, terminal records never change. -/
theorem terminal_record_stable : ∀ (ds : List (Option Delivery)) (s : State)
    (gid : Nat) (g : GenRecord), AtMostOnceEffective s ds →
    s.gens.get? gid = some g →
    (g.status = Status.DONE ∨ g.status = Status.FAILED) →
    (runDeliveries s ds).gens.get? gid = some g := by
  intro ds
  induction ds with
  | nil => intro s gid g _ hget _; exact hget
  | cons d rest ih =>
    intro s gid g hamo hget hterm
    obtain ⟨hfirst, hrest⟩ := hamo
    have hsame : (process_message s d).gens.get? gid = some g := by
      cases d with
      | none => exact hget
      | some dv =>
        cases hgid2 : dv.generationId with
        | none =>
          have hid : process_message s (some dv) = s := by
            simp only [process_message]
            rw [hgid2]
          rw [hid]
          exact hget
        | some gid2 =>
          by_cases htext : dv.text = ""
          · have hid : process_message s (some dv) = s := by
              simp only [process_message]
              rw [hgid2]
              simp [htext]
            rw [hid]
            exact hget
          · by_cases heq : gid2 = gid
            · subst heq
              have hproc := hfirst dv gid2 g rfl hgid2 htext hget
              rcases hterm with hD | hF
              · rw [hproc] at hD
                exact absurd hD (by decide)
              · rw [hproc] at hF
                exact absurd hF (by decide)
            · have hne : gid ≠ gid2 := fun hh => heq hh.symm
              rw [process_message_getq_other s dv gid2 gid hgid2 hne]
              exact hget
    exact ih (process_message s d) gid g hrest hsame hterm

/-- A successful create_prediction inserts its record with the initial
status PROCESSING. -/
theorem create_prediction_starts_processing (s : State) (u : Nat)
    (tok : Rat) (text : String) (gid : Nat)
    (h : (create_prediction s u tok text true).2 = Except.ok gid) :
    (create_prediction s u tok text true).1.gens.get? gid =
      some { user := u, text := text, tokensSpent := tok,
             status := Status.PROCESSING, s3Link := none } := by
  rcases hct : create_transaction s u tok TransactionType.DEBIT with ⟨s1, e1 | t1⟩
  · have hval : create_prediction s u tok text true = (s1, Except.error e1) := by
      simp only [create_prediction, hct]
    rw [hval] at h
    simp at h
  · rcases hpt : process_transaction s1 t1 with ⟨s2, e2 | t2⟩
    · have hval : create_prediction s u tok text true = (s2, Except.error e2) := by
        simp only [create_prediction, hct, hpt]
      rw [hval] at h
      simp at h
    · have hval : create_prediction s u tok text true =
          ({ s2 with
              gens := s2.gens ++ [{ user := u, text := text, tokensSpent := tok,
                                    status := Status.PROCESSING, s3Link := none }],
              queue := s2.queue ++ [{ generationId := s2.gens.length, user := u,
                                      text := text, tokensSpent := tok }] },
           Except.ok s2.gens.length) := by
        simp only [create_prediction, hct, hpt]
        rw [if_pos trivial]
      rw [hval] at h ⊢
      simp only [Except.ok.injEq] at h
      rw [← h]
      exact getq_concat_self s2.gens _

/-- A delivery with a generation id, non-empty text and a successful
engine run factors as the PROCESSING update followed by the DONE
update: the record reaches DONE only through PROCESSING. -/
theorem worker_done_via_processing (s : State) (dv : Delivery) (gid : Nat)
    (hgid : dv.generationId = some gid) (htext : dv.text ≠ "")
    (hok : dv.genOk = true) :
    process_message s (some dv) =
      update_generation_status
        (update_generation_status s gid Status.PROCESSING none)
        gid Status.DONE (some ("output/" ++ toString gid ++ ".wav")) := by
  simp only [process_message]
  rw [hgid]
  simp [htext, hok]

/-- Claim C8 amended: a GenerationRecord is created in PROCESSING;
a worker delivery brings it to DONE only through the intermediate
PROCESSING update; and a terminal status never changes across any
delivery sequence in which every delivery arrives while its record is
still non-terminal.  (The worker has no terminal-state guard, so an
actual re-delivery of an already settled task overwrites the terminal
status, as the counterexample shows.) -/
theorem generation_status_lifecycle :
    (∀ (s : State) (u : Nat) (tok : Rat) (text : String) (gid : Nat),
      (create_prediction s u tok text true).2 = Except.ok gid →
      (create_prediction s u tok text true).1.gens.get? gid =
        some { user := u, text := text, tokensSpent := tok,
               status := Status.PROCESSING, s3Link := none }) ∧
    (∀ (s : State) (dv : Delivery) (gid : Nat),
      dv.generationId = some gid → dv.text ≠ "" → dv.genOk = true →
      process_message s (some dv) =
        update_generation_status
          (update_generation_status s gid Status.PROCESSING none)
          gid Status.DONE (some ("output/" ++ toString gid ++ ".wav"))) ∧
    (∀ (ds : List (Option Delivery)) (s : State) (gid : Nat) (g : GenRecord),
      AtMostOnceEffective s ds → s.gens.get? gid = some g →
      (g.status = Status.DONE ∨ g.status = Status.FAILED) →
      (runDeliveries s ds).gens.get? gid = some g) :=
  ⟨create_prediction_starts_processing, worker_done_via_processing,
   terminal_record_stable⟩

/-- Witness for the C8 amended theorem: a fresh request starts in
PROCESSING; a successful delivery factors through PROCESSING before
DONE; and a DONE record survives a delivery sequence that targets a
different task. -/
theorem generation_status_lifecycle_witness :
    (create_prediction fundedState 0 5 "hi" true).1.gens.get? 0 =
      some { user := 0, text := "hi", tokensSpent := 5,
             status := Status.PROCESSING, s3Link := none } ∧
    process_message doneRecordState
        (some { generationId := some 7, text := "x", genOk := true }) =
      update_generation_status
        (update_generation_status doneRecordState 7 Status.PROCESSING none)
        7 Status.DONE (some ("output/" ++ toString 7 ++ ".wav")) ∧
    (runDeliveries doneRecordState
        [some { generationId := some 7, text := "x", genOk := false }]).gens.get? 0 =
      some { user := 0, text := "hi", tokensSpent := 5,
             status := Status.DONE, s3Link := some "output/0.wav" } := by
  refine ⟨?_, ?_, ?_⟩
  · exact generation_status_lifecycle.1 fundedState 0 5 "hi" 0 rfl
  · exact generation_status_lifecycle.2.1 doneRecordState
      { generationId := some 7, text := "x", genOk := true } 7 rfl
      (by decide) rfl
  · exact generation_status_lifecycle.2.2
      [some { generationId := some 7, text := "x", genOk := false }]
      doneRecordState 0
      { user := 0, text := "hi", tokensSpent := 5,
        status := Status.DONE, s3Link := some "output/0.wav" }
      (by constructor
          · intro dv gid g hd hgid htext hget
            cases hd
            cases hgid
            simp [doneRecordState] at hget
          · trivial)
      rfl (Or.inl rfl)

/-! Field preservation lemmas for the ledger invariant. -/

/-- A worker status update touches only the generation table. -/
theorem update_status_preserves (s : State) (gid : Nat) (st : Status)
    (link : Option String) :
    (update_generation_status s gid st link).users = s.users ∧
    (update_generation_status s gid st link).balances = s.balances ∧
    (update_generation_status s gid st link).txs = s.txs ∧
    (update_generation_status s gid st link).rate = s.rate := by
  unfold update_generation_status
  cases hg : s.gens.get? gid with
  | none => exact ⟨rfl, rfl, rfl, rfl⟩
  | some g => exact ⟨rfl, rfl, rfl, rfl⟩

/-- A delivery with a generation id, non-empty text and a failing
engine run factors as the PROCESSING update followed by the FAILED
update. -/
theorem worker_failed_via_processing (s : State) (dv : Delivery) (gid : Nat)
    (hgid : dv.generationId = some gid) (htext : dv.text ≠ "")
    (hok : dv.genOk = false) :
    process_message s (some dv) =
      update_generation_status
        (update_generation_status s gid Status.PROCESSING none)
        gid Status.FAILED none := by
  simp only [process_message]
  rw [hgid]
  simp [htext, hok]

/-- Worker deliveries touch only the generation table: users, balances,
transactions and the exchange rate are untouched. -/
theorem process_message_preserves (s : State) (d : Option Delivery) :
    (process_message s d).users = s.users ∧
    (process_message s d).balances = s.balances ∧
    (process_message s d).txs = s.txs ∧
    (process_message s d).rate = s.rate := by
  cases d with
  | none => exact ⟨rfl, rfl, rfl, rfl⟩
  | some dv =>
    cases hg : dv.generationId with
    | none =>
      have hid : process_message s (some dv) = s := by
        simp only [process_message]
        rw [hg]
      rw [hid]
      exact ⟨rfl, rfl, rfl, rfl⟩
    | some gid =>
      by_cases ht : dv.text = ""
      · have hid : process_message s (some dv) = s := by
          simp only [process_message]
          rw [hg]
          simp [ht]
        rw [hid]
        exact ⟨rfl, rfl, rfl, rfl⟩
      · cases hok : dv.genOk with
        | true =>
          rw [worker_done_via_processing s dv gid hg ht hok]
          have h1 := update_status_preserves s gid Status.PROCESSING none
          have h2 := update_status_preserves
            (update_generation_status s gid Status.PROCESSING none) gid
            Status.DONE (some ("output/" ++ toString gid ++ ".wav"))
          exact ⟨h2.1.trans h1.1, h2.2.1.trans h1.2.1,
                 h2.2.2.1.trans h1.2.2.1, h2.2.2.2.trans h1.2.2.2⟩
        | false =>
          rw [worker_failed_via_processing s dv gid hg ht hok]
          have h1 := update_status_preserves s gid Status.PROCESSING none
          have h2 := update_status_preserves
            (update_generation_status s gid Status.PROCESSING none) gid
            Status.FAILED none
          exact ⟨h2.1.trans h1.1, h2.2.1.trans h1.2.1,
                 h2.2.2.1.trans h1.2.2.1, h2.2.2.2.trans h1.2.2.2⟩

/-- A rate update never touches the balance table. -/
theorem update_rate_balances (s : State) (r : Rat) :
    (update_exchange_rate s r).1.balances = s.balances := by
  unfold update_exchange_rate
  split
  · rfl
  · rfl

/-! Ledger sum lemmas. -/

/-- A transaction of another user contributes nothing to the CREDIT
side. -/
theorem creditContribution_ne (u : Nat) (tx : Tx) (h : tx.user ≠ u) :
    creditContribution u tx = 0 := by
  simp [creditContribution, h]

/-- A transaction of another user contributes nothing to the DEBIT
side. -/
theorem debitContribution_ne (u : Nat) (tx : Tx) (h : tx.user ≠ u) :
    debitContribution u tx = 0 := by
  simp [debitContribution, h]

/-- Appending one transaction adds its contribution to the CREDIT sum. -/
theorem creditSum_concat (s2 s : State) (t : Tx) (u : Nat)
    (h : s2.txs = s.txs ++ [t]) :
    creditSum s2 u = creditSum s u + creditContribution u t := by
  unfold creditSum
  rw [h, List.map_append, List.sum_append]
  simp

/-- Appending one transaction adds its contribution to the DEBIT sum. -/
theorem debitSum_concat (s2 s : State) (t : Tx) (u : Nat)
    (h : s2.txs = s.txs ++ [t]) :
    debitSum s2 u = debitSum s u + debitContribution u t := by
  unfold debitSum
  rw [h, List.map_append, List.sum_append]
  simp

/-- States with the same transaction table have the same CREDIT sums. -/
theorem creditSum_congr (s2 s : State) (u : Nat) (h : s2.txs = s.txs) :
    creditSum s2 u = creditSum s u := by
  unfold creditSum
  rw [h]

/-- States with the same transaction table have the same DEBIT sums. -/
theorem debitSum_congr (s2 s : State) (u : Nat) (h : s2.txs = s.txs) :
    debitSum s2 u = debitSum s u := by
  unfold debitSum
  rw [h]

/-- A user with no transactions has CREDIT sum zero. -/
theorem creditSum_zero (s : State) (u : Nat)
    (h : ∀ tx ∈ s.txs, tx.user ≠ u) : creditSum s u = 0 := by
  unfold creditSum
  apply List.sum_eq_zero
  intro x hx
  rw [List.mem_map] at hx
  obtain ⟨tx, htx, rfl⟩ := hx
  exact creditContribution_ne u tx (h tx htx)

/-- A user with no transactions has DEBIT sum zero. -/
theorem debitSum_zero (s : State) (u : Nat)
    (h : ∀ tx ∈ s.txs, tx.user ≠ u) : debitSum s u = 0 := by
  unfold debitSum
  apply List.sum_eq_zero
  intro x hx
  rw [List.mem_map] at hx
  obtain ⟨tx, htx, rfl⟩ := hx
  exact debitContribution_ne u tx (h tx htx)

/-- The ledger invariant only reads users, balances, transactions and
the rate, so it transports along equality of those fields. -/
theorem inv_transport (s2 s : State) (h1 : s2.users = s.users)
    (h2 : s2.balances = s.balances) (h3 : s2.txs = s.txs)
    (h4 : s2.rate = s.rate) (h : LedgerInv s) : LedgerInv s2 := by
  unfold LedgerInv creditSum debitSum at h ⊢
  rw [h1, h2, h3, h4]
  exact h

/-- The initialized database satisfies the ledger invariant. -/
theorem ledgerInv_init : LedgerInv initState := by
  refine ⟨by norm_num [initState], by simp [initState], ?_, ?_, ?_, ?_⟩
  · intro u
    simp [initState, getBal]
  · intro tx htx
    simp [initState] at htx
  · intro tx htx
    simp [initState] at htx
  · intro u b h
    simp [initState, getBal] at h

/-- Reading a freshly prepended balance row. -/
theorem getBal_cons_self (u : Nat) (q : Rat) (l : List (Nat × Rat)) :
    getBal ((u, q) :: l) u = some q := by
  simp [getBal]

/-- Reading past a prepended balance row of another user. -/
theorem getBal_cons_ne (u v : Nat) (q : Rat) (l : List (Nat × Rat))
    (h : u ≠ v) : getBal ((u, q) :: l) v = getBal l v := by
  simp [getBal, h]

/-- The /credit route on a positive amount for an existing user with a
balance row: one DONE CREDIT transaction is appended and the balance
grows by amount * rate. -/
theorem create_credit_ok_eq (s : State) (u : Nat) (amount bal : Rat)
    (hneg : ¬ amount ≤ 0) (hu : u ∈ s.users)
    (hbal : getBal s.balances u = some bal) :
    create_credit s u amount =
      (setBalance
        { s with txs := s.txs ++
            [{ user := u, amount := amount, ttype := TransactionType.CREDIT,
               status := Status.DONE, effect := some (amount * s.rate) }] }
        u (bal + amount * s.rate),
       Except.ok s.txs.length) := by
  have hct := create_transaction_mem s u amount TransactionType.CREDIT hu
  have hget : ({ s with txs := s.txs ++
      [{ user := u, amount := amount, ttype := TransactionType.CREDIT,
         status := Status.PROCESSING, effect := none }] } : State).txs.get?
        s.txs.length =
      some { user := u, amount := amount, ttype := TransactionType.CREDIT,
             status := Status.PROCESSING, effect := none } :=
    getq_concat_self s.txs _
  have hpt := process_credit_eq
    { s with txs := s.txs ++
        [{ user := u, amount := amount, ttype := TransactionType.CREDIT,
           status := Status.PROCESSING, effect := none }] }
    s.txs.length
    { user := u, amount := amount, ttype := TransactionType.CREDIT,
      status := Status.PROCESSING, effect := none }
    bal hget rfl rfl hbal
  unfold create_credit
  rw [if_neg hneg]
  simp only [hct, hpt, set_concat]

/-- The core ledger effect of create_prediction when the debit settles:
for both publish outcomes, the users, balances, transactions and rate
of the resulting state are those of the settled debit. -/
theorem create_prediction_core_fields (s : State) (u : Nat) (tok : Rat)
    (text : String) (publishOk : Bool) (bal : Rat) (hu : u ∈ s.users)
    (hbal : getBal s.balances u = some bal) (hge : ¬ bal < tok) :
    (create_prediction s u tok text publishOk).1.users = s.users ∧
    (create_prediction s u tok text publishOk).1.balances =
      s.balances.map (fun p => if p.1 = u then (u, bal - tok) else p) ∧
    (create_prediction s u tok text publishOk).1.txs =
      s.txs ++ [{ user := u, amount := tok, ttype := TransactionType.DEBIT,
                  status := Status.DONE, effect := some tok }] ∧
    (create_prediction s u tok text publishOk).1.rate = s.rate := by
  have hct := create_transaction_mem s u tok TransactionType.DEBIT hu
  have hget : ({ s with txs := s.txs ++
      [{ user := u, amount := tok, ttype := TransactionType.DEBIT,
         status := Status.PROCESSING, effect := none }] } : State).txs.get?
        s.txs.length =
      some { user := u, amount := tok, ttype := TransactionType.DEBIT,
             status := Status.PROCESSING, effect := none } :=
    getq_concat_self s.txs _
  have hpt := process_debit_sufficient_eq
    { s with txs := s.txs ++
        [{ user := u, amount := tok, ttype := TransactionType.DEBIT,
           status := Status.PROCESSING, effect := none }] }
    s.txs.length
    { user := u, amount := tok, ttype := TransactionType.DEBIT,
      status := Status.PROCESSING, effect := none }
    bal hget rfl rfl hbal hge
  cases publishOk with
  | true =>
    simp only [create_prediction, hct, hpt, set_concat, setBalance]
    exact ⟨rfl, rfl, rfl, rfl⟩
  | false =>
    simp only [create_prediction, hct, hpt, set_concat, setBalance]
    exact ⟨rfl, rfl, rfl, rfl⟩

/-- Settling one transaction of a user preserves the ledger invariant:
appending a terminal transaction for an existing user and moving that
user balance by exactly the transaction contribution keeps every
invariant conjunct. -/
theorem inv_settled_update (s : State) (u : Nat) (bal newb : Rat) (t : Tx)
    (h : LedgerInv s) (hbal : getBal s.balances u = some bal)
    (htu : t.user = u) (hterm : t.status ≠ Status.PROCESSING)
    (hnb : newb = bal + creditContribution u t - debitContribution u t)
    (hpos : 0 ≤ newb) :
    LedgerInv (setBalance { s with txs := s.txs ++ [t] } u newb) := by
  obtain ⟨hrate, hnodup, hiff, htxu, htrm, hsum⟩ := h
  refine ⟨hrate, ?_, ?_, ?_, ?_, ?_⟩
  · show ((s.balances.map _).map Prod.fst).Nodup
    rw [keys_update]
    exact hnodup
  · intro v
    by_cases hv : v = u
    · subst hv
      show v ∈ s.users ↔ (getBal (s.balances.map _) v).isSome
      rw [getBal_update_self]
      rw [hbal]
      constructor
      · intro _; rfl
      · intro _
        exact (hiff v).mpr (by rw [hbal]; rfl)
    · show v ∈ s.users ↔ (getBal (s.balances.map _) v).isSome
      rw [getBal_update_other s.balances u newb v hv]
      exact hiff v
  · intro tx htx
    rcases List.mem_append.mp htx with h1 | h2
    · exact htxu tx h1
    · have : tx = t := by simpa using h2
      subst this
      rw [htu]
      exact (hiff u).mpr (by rw [hbal]; rfl)
  · intro tx htx
    rcases List.mem_append.mp htx with h1 | h2
    · exact htrm tx h1
    · have : tx = t := by simpa using h2
      subst this
      exact hterm
  · intro v b hgb
    by_cases hv : v = u
    · subst hv
      rw [show (setBalance { s with txs := s.txs ++ [t] } v newb).balances =
            s.balances.map (fun p => if p.1 = v then (v, newb) else p) from rfl] at hgb
      rw [getBal_update_self, hbal] at hgb
      have hb2 : newb = b := Option.some.inj hgb
      obtain ⟨hb, hb0⟩ := hsum v bal hbal
      constructor
      · rw [creditSum_concat _ s t v rfl, debitSum_concat _ s t v rfl]
        rw [← hb2, hnb, hb]
        ring
      · rw [← hb2]
        exact hpos
    · rw [show (setBalance { s with txs := s.txs ++ [t] } u newb).balances =
            s.balances.map (fun p => if p.1 = u then (u, newb) else p) from rfl] at hgb
      rw [getBal_update_other s.balances u newb v hv] at hgb
      obtain ⟨hb, hb0⟩ := hsum v b hgb
      constructor
      · rw [creditSum_concat _ s t v rfl, debitSum_concat _ s t v rfl]
        rw [creditContribution_ne v t (by rw [htu]; exact fun hh => hv hh.symm),
            debitContribution_ne v t (by rw [htu]; exact fun hh => hv hh.symm)]
        rw [hb]
        ring
      · exact hb0

/-- Registration preserves the ledger invariant: the new user gets a
fresh balance of 100 matched by the settled initial-grant credit. -/
theorem inv_register (s : State) (u : Nat) (h : LedgerInv s) :
    LedgerInv (create_user s u).1 := by
  by_cases hu : u ∈ s.users
  · have hid : create_user s u = (s, Except.error Err.integrity) := by
      unfold create_user
      simp [hu]
    rw [hid]
    exact h
  · have hcu : create_user s u =
        ({ s with
            users := u :: s.users,
            balances := (u, 100) :: s.balances,
            txs := s.txs ++ [grantTx u] },
         Except.ok u) := by
      unfold create_user grantTx
      simp [hu]
    rw [hcu]
    obtain ⟨hrate, hnodup, hiff, htxu, htrm, hsum⟩ := h
    have hbal_none : getBal s.balances u = none := by
      cases hg : getBal s.balances u with
      | none => rfl
      | some b => exact absurd ((hiff u).mpr (by rw [hg]; rfl)) hu
    have hnotx : ∀ tx ∈ s.txs, tx.user ≠ u :=
      fun tx htx hh => hu (hh ▸ htxu tx htx)
    refine ⟨hrate, ?_, ?_, ?_, ?_, ?_⟩
    · show (((u, (100 : Rat)) :: s.balances).map Prod.fst).Nodup
      rw [List.map_cons]
      exact List.nodup_cons.mpr ⟨(getBal_none_iff s.balances u).mp hbal_none, hnodup⟩
    · intro v
      by_cases hv : v = u
      · subst hv
        show v ∈ v :: s.users ↔ (getBal ((v, 100) :: s.balances) v).isSome
        rw [getBal_cons_self]
        simp
      · show v ∈ u :: s.users ↔ (getBal ((u, 100) :: s.balances) v).isSome
        rw [getBal_cons_ne u v 100 s.balances (fun hh => hv hh.symm)]
        rw [List.mem_cons]
        constructor
        · rintro (hh | hh)
          · exact absurd hh hv
          · exact (hiff v).mp hh
        · intro hh
          exact Or.inr ((hiff v).mpr hh)
    · intro tx htx
      rcases List.mem_append.mp htx with h1 | h2
      · exact List.mem_cons_of_mem _ (htxu tx h1)
      · have hx : tx = grantTx u := by simpa using h2
        subst hx
        exact List.mem_cons_self _ _
    · intro tx htx
      rcases List.mem_append.mp htx with h1 | h2
      · exact htrm tx h1
      · have hx : tx = grantTx u := by simpa using h2
        subst hx
        simp [grantTx]
    · intro v b hgb
      by_cases hv : v = u
      · subst hv
        rw [getBal_cons_self] at hgb
        have hb : (100 : Rat) = b := Option.some.inj hgb
        constructor
        · rw [creditSum_concat _ s (grantTx v) v rfl,
              debitSum_concat _ s (grantTx v) v rfl]
          rw [creditSum_zero s v hnotx, debitSum_zero s v hnotx]
          rw [← hb]
          simp [grantTx, creditContribution, debitContribution]
        · rw [← hb]
          norm_num
      · rw [getBal_cons_ne u v 100 s.balances (fun hh => hv hh.symm)] at hgb
        obtain ⟨hb, hb0⟩ := hsum v b hgb
        refine ⟨?_, hb0⟩
        rw [creditSum_concat _ s (grantTx u) v rfl,
            debitSum_concat _ s (grantTx u) v rfl]
        rw [creditContribution_ne v (grantTx u) (fun hh => hv hh.symm),
            debitContribution_ne v (grantTx u) (fun hh => hv hh.symm)]
        rw [hb]
        ring

/-- The /credit route preserves the ledger invariant. -/
theorem inv_credit (s : State) (u : Nat) (amount : Rat)
    (h : LedgerInv s) : LedgerInv (create_credit s u amount).1 := by
  by_cases hneg : amount ≤ 0
  · have hid : create_credit s u amount = (s, Except.error Err.invalidAmount) := by
      unfold create_credit
      simp [hneg]
    rw [hid]
    exact h
  · by_cases hu : u ∈ s.users
    · cases hg : getBal s.balances u with
      | none =>
        have hx := (h.2.2.1 u).mp hu
        rw [hg] at hx
        exact absurd hx (by simp)
      | some bal =>
        rw [create_credit_ok_eq s u amount bal hneg hu hg]
        refine inv_settled_update s u bal (bal + amount * s.rate) _ h hg rfl
          (by intro hh; exact Status.noConfusion hh) ?_ ?_
        · simp [creditContribution, debitContribution]
        · have hb0 := (h.2.2.2.2.2 u bal hg).2
          have hr := h.1
          have ha : 0 < amount := not_le.mp hneg
          have hprod : 0 < amount * s.rate := mul_pos ha hr
          linarith
    · have hid : create_credit s u amount = (s, Except.error Err.userNotFound) := by
        unfold create_credit
        rw [if_neg hneg]
        unfold create_transaction
        simp [hu]
      rw [hid]
      exact h

/-- The /predict route preserves the ledger invariant. -/
theorem inv_predict (s : State) (u : Nat) (text : String) (tok : Nat)
    (publishOk : Bool) (h : LedgerInv s) :
    LedgerInv (create_generation s u text tok publishOk).1 := by
  cases hg : getBal s.balances u with
  | none =>
    have hid : create_generation s u text tok publishOk =
        (s, Except.error Err.balanceNotFound) := by
      unfold create_generation
      rw [hg]
    rw [hid]
    exact h
  | some bal =>
    by_cases hlt : bal < (tok : Rat)
    · have hid : create_generation s u text tok publishOk =
          (s, Except.error Err.insufficientBalance) := by
        unfold create_generation
        rw [hg]
        simp [hlt]
      rw [hid]
      exact h
    · have hu : u ∈ s.users := (h.2.2.1 u).mpr (by rw [hg]; rfl)
      have hcore := create_prediction_core_fields s u (tok : Rat) text
        publishOk bal hu hg hlt
      have hgen : create_generation s u text tok publishOk =
          create_prediction s u (tok : Rat) text publishOk := by
        unfold create_generation
        rw [hg]
        simp [hlt]
      rw [hgen]
      have hB : LedgerInv (setBalance
          { s with txs := s.txs ++ [debitDoneTx u (tok : Rat)] }
          u (bal - (tok : Rat))) := by
        refine inv_settled_update s u bal (bal - (tok : Rat))
          (debitDoneTx u (tok : Rat)) h hg rfl
          (by simp [debitDoneTx]) ?_ ?_
        · simp [debitDoneTx, creditContribution, debitContribution]
        · exact sub_nonneg.mpr (not_lt.mp hlt)
      exact inv_transport _ (setBalance
          { s with txs := s.txs ++ [debitDoneTx u (tok : Rat)] }
          u (bal - (tok : Rat)))
        hcore.1 hcore.2.1 hcore.2.2.1 hcore.2.2.2 hB

/-- A bare settle call preserves the ledger invariant: in reachable
states all transactions are terminal, so it is a no-op. -/
theorem inv_settle (s : State) (i : Nat) (h : LedgerInv s) :
    LedgerInv (process_transaction s i).1 := by
  cases hg : s.txs.get? i with
  | none =>
    have hid : process_transaction s i =
        (s, Except.error Err.transactionNotFound) := by
      unfold process_transaction
      rw [hg]
    rw [hid]
    exact h
  | some tx =>
    have hterm := h.2.2.2.2.1 tx (mem_of_getq s.txs i tx hg)
    rw [process_terminal_eq s i tx hg hterm]
    exact h

/-- A rate update preserves the ledger invariant. -/
theorem inv_setRate (s : State) (r : Rat) (h : LedgerInv s) :
    LedgerInv (update_exchange_rate s r).1 := by
  by_cases hr : r ≤ 0
  · have hid : update_exchange_rate s r = (s, Except.error Err.invalidRate) := by
      unfold update_exchange_rate
      simp [hr]
    rw [hid]
    exact h
  · have hid : update_exchange_rate s r = ({ s with rate := r }, Except.ok ()) := by
      unfold update_exchange_rate
      simp [hr]
    rw [hid]
    obtain ⟨_, hnodup, hiff, htxu, htrm, hsum⟩ := h
    refine ⟨not_le.mp hr, hnodup, hiff, htxu, htrm, ?_⟩
    intro v b hgb
    have hgb2 : getBal s.balances v = some b := hgb
    obtain ⟨hb, hb0⟩ := hsum v b hgb2
    refine ⟨?_, hb0⟩
    show b = creditSum ({ s with rate := r }) v - debitSum ({ s with rate := r }) v
    rw [creditSum_congr ({ s with rate := r }) s v rfl,
        debitSum_congr ({ s with rate := r }) s v rfl]
    exact hb

/-- A worker delivery preserves the ledger invariant. -/
theorem inv_deliver (s : State) (d : Option Delivery) (h : LedgerInv s) :
    LedgerInv (process_message s d) := by
  have hp := process_message_preserves s d
  exact inv_transport _ s hp.1 hp.2.1 hp.2.2.1 hp.2.2.2 h

/-- Every API or worker operation preserves the ledger invariant. -/
theorem inv_apply (s : State) (a : Act) (h : LedgerInv s) :
    LedgerInv (applyAct s a) := by
  cases a with
  | register u => exact inv_register s u h
  | credit u amount => exact inv_credit s u amount h
  | predict u text tok publishOk => exact inv_predict s u text tok publishOk h
  | settle i => exact inv_settle s i h
  | setRate r => exact inv_setRate s r h
  | deliver d => exact inv_deliver s d h

/-- Every reachable state satisfies the ledger invariant. -/
theorem reachable_ledgerInv (s : State) (h : Reachable s) : LedgerInv s := by
  obtain ⟨acts, rfl⟩ := h
  unfold runActs
  have key : ∀ (l : List Act) (s0 : State),
      LedgerInv s0 → LedgerInv (l.foldl applyAct s0) := by
    intro l
    induction l with
    | nil => intro s0 h0; exact h0
    | cons a rest ih =>
      intro s0 h0
      exact ih (applyAct s0 a) (inv_apply s0 a h0)
  exact key acts initState ledgerInv_init

/-- Claim C1: in every reachable state every balance equals the sum of
the token-equivalent amounts of that user DONE CREDIT transactions
minus the sum of that user DONE DEBIT amounts and is never negative;
and the balance table is mutated only by transaction-settling
operations (registration with its fixed 100-token settled grant, the
credit and predict routes, and settle itself) — a rate update or a
worker delivery never changes any balance. -/
theorem balance_equals_ledger_sums :
    (∀ s : State, Reachable s → ∀ (u : Nat) (b : Rat),
      getBal s.balances u = some b →
      b = creditSum s u - debitSum s u ∧ 0 ≤ b) ∧
    (∀ (s : State) (a : Act) (u : Nat),
      getBal (applyAct s a).balances u ≠ getBal s.balances u →
      settlesTransactions a = true) := by
  constructor
  · intro s hs u b hb
    exact (reachable_ledgerInv s hs).2.2.2.2.2 u b hb
  · intro s a u hne
    cases a with
    | register u2 => rfl
    | credit u2 amount => rfl
    | predict u2 text tok publishOk => rfl
    | settle i => rfl
    | setRate r =>
      have heq : getBal (applyAct s (Act.setRate r)).balances u =
          getBal s.balances u := by
        rw [show (applyAct s (Act.setRate r)).balances = s.balances from
          update_rate_balances s r]
      exact absurd heq hne
    | deliver d =>
      have heq : getBal (applyAct s (Act.deliver d)).balances u =
          getBal s.balances u := by
        rw [show (applyAct s (Act.deliver d)).balances = s.balances from
          (process_message_preserves s d).2.1]
      exact absurd heq hne

/-- Witness for C1: after registering user 0 on the initialized
database, the theorem yields balance 100 with the ledger sums, and the
register action (which changed the balance from absent to 100) is a
settling operation. -/
theorem balance_equals_ledger_sums_witness :
    Reachable (runActs [Act.register 0]) ∧
    getBal (runActs [Act.register 0]).balances 0 = some 100 ∧
    ((100 : Rat) = creditSum (runActs [Act.register 0]) 0 -
        debitSum (runActs [Act.register 0]) 0 ∧ (0 : Rat) ≤ 100) ∧
    settlesTransactions (Act.register 0) = true := by
  have hreach : Reachable (runActs [Act.register 0]) := ⟨[Act.register 0], rfl⟩
  have hb : getBal (runActs [Act.register 0]).balances 0 = some 100 := rfl
  have h1 := balance_equals_ledger_sums.1 (runActs [Act.register 0]) hreach 0 100 hb
  have hne : getBal (applyAct initState (Act.register 0)).balances 0 ≠
      getBal initState.balances 0 := by decide
  have h2 := balance_equals_ledger_sums.2 initState (Act.register 0) 0 hne
  exact ⟨hreach, hb, h1, h2⟩

end KCSyth
